import Mathlib

/-!
Shallow embedding of the interview-prep repository demo components:
the tab group widget (tab.component.ts / tab-group.component.ts) and the
user card component (user.component.ts), together with proofs of the
specification claims about them.
-/

namespace InterviewPrep

/-- Embedding of TabComponent: an input title and a mutable boolean
active flag, initially false. -/
structure TabComponent where
  title : String
  active : Bool
  deriving Repr, DecidableEq

/-- Source: activate() sets active to true. -/
def TabComponent.activate (t : TabComponent) : TabComponent :=
  { t with active := true }

/-- Source: deactivate() sets active to false. -/
def TabComponent.deactivate (t : TabComponent) : TabComponent :=
  { t with active := false }

/-- Embedding of TabGroupComponent: its ContentChildren query list of
child TabComponent widgets, in document order. -/
structure TabGroupComponent where
  tabs : List TabComponent
  deriving Repr, DecidableEq

/-- Source: ngAfterContentInit activates the first tab when the query
list is non-empty (if tabs.length greater than 0 then tabs.first.activate). -/
def TabGroupComponent.ngAfterContentInit (g : TabGroupComponent) : TabGroupComponent :=
  if g.tabs.length > 0 then
    { g with tabs :=
        match g.tabs with
        | [] => g.tabs
        | t :: ts => t.activate :: ts }
  else g

/-- Source: selectTab(index) first deactivates every tab via forEach,
then, when tabsArray at that index is defined (index in range, a
JavaScript array lookup with a negative or too-large index yields
undefined), activates the tab at that index. -/
def TabGroupComponent.selectTab (g : TabGroupComponent) (index : Int) : TabGroupComponent :=
  let deactivated := g.tabs.map TabComponent.deactivate
  if 0 ≤ index then
    match deactivated[index.toNat]? with
    | some t => { g with tabs := deactivated.set index.toNat t.activate }
    | none => { g with tabs := deactivated }
  else
    { g with tabs := deactivated }

/-- A sequence of selectTab calls, applied left to right. -/
def TabGroupComponent.selectTabs (g : TabGroupComponent) (indices : List Int) : TabGroupComponent :=
  indices.foldl TabGroupComponent.selectTab g

/-- Number of child tabs whose active flag is true. -/
def TabGroupComponent.countActive (g : TabGroupComponent) : Nat :=
  g.tabs.countP (fun t => t.active)

/- Basic lemmas about the tab embedding. -/

theorem TabComponent.active_activate (t : TabComponent) : t.activate.active = true := rfl

theorem TabComponent.active_deactivate (t : TabComponent) : t.deactivate.active = false := rfl

theorem TabComponent.deactivate_activate (t : TabComponent) :
    t.activate.deactivate = t.deactivate := rfl

theorem TabComponent.deactivate_deactivate (t : TabComponent) :
    t.deactivate.deactivate = t.deactivate := rfl

theorem TabGroupComponent.length_selectTab (g : TabGroupComponent) (i : Int) :
    (g.selectTab i).tabs.length = g.tabs.length := by
  simp only [TabGroupComponent.selectTab]
  split
  · split <;> simp
  · simp

theorem TabGroupComponent.length_ngAfterContentInit (g : TabGroupComponent) :
    g.ngAfterContentInit.tabs.length = g.tabs.length := by
  simp only [TabGroupComponent.ngAfterContentInit]
  split
  · cases g.tabs <;> simp
  · rfl

theorem countP_active_map_deactivate (l : List TabComponent) :
    (l.map TabComponent.deactivate).countP (fun t => t.active) = 0 := by
  rw [List.countP_eq_zero]
  intro a ha
  obtain ⟨b, _, rfl⟩ := List.mem_map.mp ha
  simp [TabComponent.deactivate]

theorem countP_active_eq_zero_of_all_false (l : List TabComponent)
    (h : ∀ t ∈ l, t.active = false) :
    l.countP (fun t => t.active) = 0 := by
  rw [List.countP_eq_zero]
  intro a ha
  simp [h a ha]

theorem countP_active_set_true (l : List TabComponent) (k : Nat) (x : TabComponent)
    (hk : k < l.length) (hall : ∀ t ∈ l, t.active = false) (hx : x.active = true) :
    (l.set k x).countP (fun t => t.active) = 1 := by
  induction l generalizing k with
  | nil => cases hk
  | cons a as ih =>
    cases k with
    | zero =>
      have h0 : as.countP (fun t => t.active) = 0 :=
        countP_active_eq_zero_of_all_false as (fun t ht => hall t (List.mem_cons_of_mem _ ht))
      simp [List.set, List.countP_cons, hx, h0]
    | succ k =>
      have hk' : k < as.length := by simpa using hk
      have h1 := ih k hk' (fun t ht => hall t (List.mem_cons_of_mem _ ht))
      have ha : a.active = false := hall a (List.mem_cons_self _ _)
      simp [List.set, List.countP_cons, ha, h1]

instance : Inhabited TabComponent := ⟨⟨"", false⟩⟩

theorem TabGroupComponent.selectTab_tabs_of_neg (g : TabGroupComponent) (i : Int)
    (h : i < 0) :
    (g.selectTab i).tabs = g.tabs.map TabComponent.deactivate := by
  simp only [TabGroupComponent.selectTab]
  rw [if_neg (by omega)]

theorem TabGroupComponent.selectTab_tabs_of_ge (g : TabGroupComponent) (i : Int)
    (h : (g.tabs.length : Int) ≤ i) :
    (g.selectTab i).tabs = g.tabs.map TabComponent.deactivate := by
  simp only [TabGroupComponent.selectTab]
  rw [if_pos (by omega), List.getElem?_eq_none (by simp; omega)]

theorem TabGroupComponent.selectTab_tabs_of_lt (g : TabGroupComponent) (i : Int)
    (h0 : 0 ≤ i) (h : i.toNat < g.tabs.length) :
    (g.selectTab i).tabs =
      (g.tabs.map TabComponent.deactivate).set i.toNat
        (((g.tabs.map TabComponent.deactivate).get ⟨i.toNat, by simpa using h⟩).activate) := by
  simp only [TabGroupComponent.selectTab]
  rw [if_pos h0, List.getElem?_eq_getElem (by simpa using h)]
  rfl

theorem TabGroupComponent.selectTab_countActive (g : TabGroupComponent) (i : Int)
    (h0 : 0 ≤ i) (h : i.toNat < g.tabs.length) :
    (g.selectTab i).countActive = 1 := by
  rw [TabGroupComponent.countActive, TabGroupComponent.selectTab_tabs_of_lt g i h0 h]
  apply countP_active_set_true
  · simpa using h
  · intro t ht
    obtain ⟨b, _, rfl⟩ := List.mem_map.mp ht
    rfl
  · rfl

theorem TabGroupComponent.selectTabs_countActive (g : TabGroupComponent) (idxs : List Int)
    (hg : g.countActive = 1)
    (hin : ∀ i ∈ idxs, 0 ≤ i ∧ i.toNat < g.tabs.length) :
    (g.selectTabs idxs).countActive = 1 := by
  induction idxs generalizing g with
  | nil => simpa [TabGroupComponent.selectTabs] using hg
  | cons i rest ih =>
    have hi := hin i (List.mem_cons_self _ _)
    have h1 : (g.selectTab i).countActive = 1 :=
      TabGroupComponent.selectTab_countActive g i hi.1 hi.2
    have h2 : ∀ j ∈ rest, 0 ≤ j ∧ j.toNat < (g.selectTab i).tabs.length := by
      intro j hj
      rw [TabGroupComponent.length_selectTab]
      exact hin j (List.mem_cons_of_mem _ hj)
    simpa [TabGroupComponent.selectTabs] using ih (g.selectTab i) h1 h2

theorem TabGroupComponent.ngAfterContentInit_countActive (g : TabGroupComponent)
    (h0 : ∀ t ∈ g.tabs, t.active = false) (hne : g.tabs ≠ []) :
    g.ngAfterContentInit.countActive = 1 := by
  obtain ⟨t, ts, htabs⟩ := List.exists_cons_of_ne_nil hne
  have hts : ts.countP (fun u => u.active) = 0 :=
    countP_active_eq_zero_of_all_false ts
      (fun u hu => h0 u (htabs ▸ List.mem_cons_of_mem _ hu))
  simp only [TabGroupComponent.countActive, TabGroupComponent.ngAfterContentInit, htabs,
    List.length_cons]
  rw [if_pos (Nat.succ_pos _)]
  simp [List.countP_cons, TabComponent.activate, hts]

theorem set_get_self {α : Type} (l : List α) (k : Nat) (h : k < l.length) :
    l.set k (l.get ⟨k, h⟩) = l := by
  induction l generalizing k with
  | nil => cases h
  | cons a as ih =>
    cases k with
    | zero => rfl
    | succ k =>
      have h' : k < as.length := by simpa using h
      calc (a :: as).set (k + 1) ((a :: as).get ⟨k + 1, h⟩)
          = a :: as.set k (as.get ⟨k, h'⟩) := rfl
        _ = a :: as := by rw [ih k h']

theorem map_deactivate_idem (l : List TabComponent) :
    (l.map TabComponent.deactivate).map TabComponent.deactivate =
      l.map TabComponent.deactivate := by
  rw [List.map_map]
  apply List.map_congr_left
  intro a _
  rfl

theorem TabGroupComponent.map_deactivate_selectTab (g : TabGroupComponent) (i : Int) :
    (g.selectTab i).tabs.map TabComponent.deactivate = g.tabs.map TabComponent.deactivate := by
  by_cases h0 : 0 ≤ i
  · by_cases h : i.toNat < g.tabs.length
    · rw [TabGroupComponent.selectTab_tabs_of_lt g i h0 h, List.map_set]
      have hx : (((g.tabs.map TabComponent.deactivate).get
          ⟨i.toNat, by simpa using h⟩).activate).deactivate =
          (g.tabs.map TabComponent.deactivate).get ⟨i.toNat, by simpa using h⟩ := by
        rw [TabComponent.deactivate_activate, List.get_eq_getElem, List.getElem_map]
        rfl
      rw [map_deactivate_idem]
      conv_lhs => rw [hx]
      exact set_get_self _ _ _
    · rw [TabGroupComponent.selectTab_tabs_of_ge g i (by omega), map_deactivate_idem]
  · rw [TabGroupComponent.selectTab_tabs_of_neg g i (by omega), map_deactivate_idem]

theorem TabGroupComponent.eq_of_tabs_eq (g h : TabGroupComponent)
    (he : g.tabs = h.tabs) : g = h := by
  cases g
  cases h
  cases he
  rfl

theorem TabGroupComponent.selectTab_tabs_eq_aux (g : TabGroupComponent) (j : Int) :
    (g.selectTab j).tabs =
      (if 0 ≤ j then
        match (g.tabs.map TabComponent.deactivate)[j.toNat]? with
        | some t => (g.tabs.map TabComponent.deactivate).set j.toNat t.activate
        | none => g.tabs.map TabComponent.deactivate
      else g.tabs.map TabComponent.deactivate) := by
  simp only [TabGroupComponent.selectTab]
  split
  · split <;> rfl
  · rfl

theorem TabGroupComponent.selectTab_congr (g h : TabGroupComponent)
    (he : g.tabs.map TabComponent.deactivate = h.tabs.map TabComponent.deactivate)
    (j : Int) :
    g.selectTab j = h.selectTab j := by
  apply TabGroupComponent.eq_of_tabs_eq
  rw [TabGroupComponent.selectTab_tabs_eq_aux, TabGroupComponent.selectTab_tabs_eq_aux, he]

/-- Embedding of the User interface: a record with a single name field. -/
structure User where
  name : String
  deriving Repr, DecidableEq

instance : Inhabited User := ⟨⟨""⟩⟩

/-- Embedding of UserComponent. JavaScript object identity is made
explicit with a small heap: heap is the list of allocated User objects
and userRef is the index of the object the user field currently points
to. The remaining fields (counter, apiData, the loading signal) are
plain values. -/
structure UserComponent where
  heap : List User
  userRef : Nat
  counter : Int
  apiData : String
  loading : Bool
  deriving Repr, DecidableEq

/-- The initial component state: user points at a freshly allocated
object with name John Doe, counter is 0, apiData is the string No data,
the loading signal is false. -/
def UserComponent.init : UserComponent :=
  { heap := [{ name := "John Doe" }]
    userRef := 0
    counter := 0
    apiData := "No data"
    loading := false }

/-- Source: mutateUser writes name on the existing user object in place
(this.user.name gets a fresh random suffix appended to the text New
Name); no new object is allocated and the user reference is unchanged.
The random number drawn by Math.random is the parameter r. -/
def UserComponent.mutateUser (s : UserComponent) (r : String) : UserComponent :=
  { s with heap := (s.heap.set s.userRef
      { s.heap.getD s.userRef default with name := "New Name" ++ r }) }

/-- Source: replaceUser allocates a new object by spreading the old one
and overriding name with the text New Name, then repoints the user field
at it (this.user gets a new reference). -/
def UserComponent.replaceUser (s : UserComponent) : UserComponent :=
  { s with
    heap := s.heap ++ [{ s.heap.getD s.userRef default with name := "New Name" }]
    userRef := s.heap.length }

/-- Embedding of the API response object produced by the of(...) call in
fetchDataWithObservable: a data string and a timestamp string. -/
structure Response where
  data : String
  timestamp : String
  deriving Repr, DecidableEq

/-- Source: the first statement of fetchDataBad sets the loading signal
to true. -/
def UserComponent.fetchDataBadStart (s : UserComponent) : UserComponent :=
  { s with loading := true }

/-- Source: the then-callback of the promise in fetchDataBad updates
apiData with the fetch time; the loading reset and the markForCheck call
are commented out, so nothing else changes. -/
def UserComponent.fetchDataBadThen (s : UserComponent) (time : String) : UserComponent :=
  { s with apiData := "Data fetched at " ++ time }

/-- Source: fetchDataBad sets loading to true and schedules the
then-callback, which runs when the simulated request resolves at the
given time. -/
def UserComponent.fetchDataBad (s : UserComponent) (time : String) : UserComponent :=
  (s.fetchDataBadStart).fetchDataBadThen time

/-- Source: the first statement of fetchDataWithObservable sets the
loading signal to true. -/
def UserComponent.fetchDataWithObservableStart (s : UserComponent) : UserComponent :=
  { s with loading := true }

/-- Source: the observable pipeline of fetchDataWithObservable. On a
successful emission the tap operator stores the formatted response in
apiData and sets loading to false; on an error the catchError operator
sets loading to false and replaces the stream with of(null). The outcome
parameter says which of the two happened. -/
def UserComponent.observableSettle (s : UserComponent) (outcome : Except String Response) :
    UserComponent :=
  match outcome with
  | Except.ok response =>
      { s with
        apiData := "Data: " ++ response.data ++ " at " ++ response.timestamp
        loading := false }
  | Except.error _ => { s with loading := false }

/-- Source: fetchDataWithObservable sets loading to true and subscribes
to the pipeline, which later settles with the given outcome. -/
def UserComponent.fetchDataWithObservable (s : UserComponent)
    (outcome : Except String Response) : UserComponent :=
  (s.fetchDataWithObservableStart).observableSettle outcome

/-- Claim C1, as frozen, fails on the code: with one child tab, after
content initialization the sequence of selectTab calls consisting of the
single out-of-range call selectTab(5) leaves zero tabs active, not
exactly one. -/
theorem C1_counterexample :
    ¬ (((TabGroupComponent.mk [TabComponent.mk "Tab 1" false]).ngAfterContentInit.selectTabs
        [(5 : Int)]).countActive = 1) := by decide

/-- Claim C1 (amended): for a non-empty list of child tabs, all initially
inactive, after content initialization and any subsequent sequence of
selectTab calls whose indices are all in range, exactly one child tab has
active = true. -/
theorem C1_exactly_one_active (g : TabGroupComponent)
    (h0 : ∀ t ∈ g.tabs, t.active = false) (hne : g.tabs ≠ [])
    (idxs : List Int) (hin : ∀ i ∈ idxs, 0 ≤ i ∧ i.toNat < g.tabs.length) :
    (g.ngAfterContentInit.selectTabs idxs).countActive = 1 := by
  apply TabGroupComponent.selectTabs_countActive
  · exact TabGroupComponent.ngAfterContentInit_countActive g h0 hne
  · intro i hi
    rw [TabGroupComponent.length_ngAfterContentInit]
    exact hin i hi

/-- Witness for C1 (amended) at a concrete two-tab group and a concrete
sequence of in-range selections. -/
theorem C1_witness :
    (((TabGroupComponent.mk [TabComponent.mk "A" false, TabComponent.mk "B" false]
      ).ngAfterContentInit).selectTabs [(1 : Int), 0, 1]).countActive = 1 :=
  C1_exactly_one_active _ (by decide) (by decide) _ (by decide)

/-- Claim C2: for every in-range index i, selectTab(i) sets active = true
on the tab at index i and active = false on every other child tab. -/
theorem C2_selectTab_activates_only_target (g : TabGroupComponent) (i : Nat)
    (hi : i < g.tabs.length) :
    ((g.selectTab (i : Int)).tabs.get
        ⟨i, by rw [TabGroupComponent.length_selectTab]; exact hi⟩).active = true ∧
    ∀ j, ∀ hj : j < g.tabs.length, j ≠ i →
      ((g.selectTab (i : Int)).tabs.get
          ⟨j, by rw [TabGroupComponent.length_selectTab]; exact hj⟩).active = false := by
  have h0 : (0 : Int) ≤ (i : Int) := by omega
  have hi' : ((i : Int)).toNat < g.tabs.length := by
    rw [Int.toNat_ofNat]
    exact hi
  have htabs := TabGroupComponent.selectTab_tabs_of_lt g (i : Int) h0 hi'
  constructor
  · rw [List.get_eq_getElem]
    simp only [htabs, Int.toNat_ofNat]
    rw [List.getElem_set_self]
    rfl
  · intro j hj hne
    rw [List.get_eq_getElem]
    simp only [htabs, Int.toNat_ofNat]
    rw [List.getElem_set_ne (by omega)]
    simp only [List.getElem_map]
    rfl

/-- Witness for C2 at a concrete two-tab group, selecting index 1:
the tab at index 1 ends active and the tab at index 0 ends inactive. -/
theorem C2_witness :
    (((TabGroupComponent.mk [TabComponent.mk "A" true, TabComponent.mk "B" false]).selectTab
        (((1 : Nat) : Int))).tabs.get ⟨1, by decide⟩).active = true ∧
    (((TabGroupComponent.mk [TabComponent.mk "A" true, TabComponent.mk "B" false]).selectTab
        (((1 : Nat) : Int))).tabs.get ⟨0, by decide⟩).active = false := by
  refine ⟨?_, ?_⟩
  · exact (C2_selectTab_activates_only_target _ 1 (by decide)).1
  · exact (C2_selectTab_activates_only_target _ 1 (by decide)).2 0 (by decide) (by decide)

/-- Claim C3: when the child tabs become known and the list is non-empty,
ngAfterContentInit activates the first tab in the list. -/
theorem C3_first_tab_activated (g : TabGroupComponent) (hne : g.tabs ≠ []) :
    g.ngAfterContentInit.tabs.headI.active = true := by
  obtain ⟨t, ts, htabs⟩ := List.exists_cons_of_ne_nil hne
  simp only [TabGroupComponent.ngAfterContentInit, htabs, List.length_cons]
  rw [if_pos (Nat.succ_pos _)]
  rfl

/-- Witness for C3 at a concrete one-tab group. -/
theorem C3_witness :
    (TabGroupComponent.mk [TabComponent.mk "A" false]).ngAfterContentInit.tabs.headI.active
      = true :=
  C3_first_tab_activated _ (by decide)

/-- Claim C4: for every out-of-range index (negative, or at least the
number of child tabs, including the empty list), selectTab leaves every
child tab inactive, so zero tabs are active afterwards; the embedding is
a total function, so no error is raised. -/
theorem C4_out_of_range_no_active (g : TabGroupComponent) (i : Int)
    (h : i < 0 ∨ (g.tabs.length : Int) ≤ i) :
    (∀ t ∈ (g.selectTab i).tabs, t.active = false) ∧ (g.selectTab i).countActive = 0 := by
  have htabs : (g.selectTab i).tabs = g.tabs.map TabComponent.deactivate := by
    rcases h with h | h
    · exact TabGroupComponent.selectTab_tabs_of_neg g i h
    · exact TabGroupComponent.selectTab_tabs_of_ge g i h
  constructor
  · intro t ht
    rw [htabs] at ht
    obtain ⟨b, _, rfl⟩ := List.mem_map.mp ht
    rfl
  · rw [TabGroupComponent.countActive, htabs]
    exact countP_active_map_deactivate _

/-- Witness for C4: selecting index 5 on a one-tab group whose tab was
active leaves zero tabs active. -/
theorem C4_witness :
    ((TabGroupComponent.mk [TabComponent.mk "A" true]).selectTab 5).countActive = 0 :=
  (C4_out_of_range_no_active _ 5 (by decide)).2

/-- Claim C8: selectTab is absorbing on the activation state: for
in-range indices i and j, selectTab(i) followed by selectTab(j) yields
the same component state as selectTab(j) alone, and in particular
selectTab(i) is idempotent. -/
theorem C8_selectTab_absorbing (g : TabGroupComponent) (i j : Int)
    (hi : 0 ≤ i ∧ i.toNat < g.tabs.length) (hj : 0 ≤ j ∧ j.toNat < g.tabs.length) :
    (g.selectTab i).selectTab j = g.selectTab j ∧
    (g.selectTab i).selectTab i = g.selectTab i := by
  have key : ∀ k : Int, (g.selectTab i).selectTab k = g.selectTab k := fun k =>
    TabGroupComponent.selectTab_congr _ _ (TabGroupComponent.map_deactivate_selectTab g i) k
  exact ⟨key j, key i⟩

/-- Witness for C8 at a concrete two-tab group with indices 0 and 1. -/
theorem C8_witness :
    ((TabGroupComponent.mk [TabComponent.mk "A" false, TabComponent.mk "B" true]).selectTab
        0).selectTab 1 =
      (TabGroupComponent.mk [TabComponent.mk "A" false, TabComponent.mk "B" true]).selectTab
        1 :=
  (C8_selectTab_absorbing _ 0 1 (by decide) (by decide)).1

/-- Claim C5: replaceUser repoints the user field at a freshly allocated
object whose name is exactly New Name and whose other fields are copied
from the previous value, leaving every previously allocated object
untouched; mutateUser rewrites the name of the existing user object in
place, allocating nothing and keeping the user reference; in both
operations the counter, apiData and loading fields are unchanged. -/
theorem C5_replaceUser_vs_mutateUser (s : UserComponent) (r : String)
    (h : s.userRef < s.heap.length) :
    (s.replaceUser.userRef ≠ s.userRef ∧
     s.replaceUser.heap.length = s.heap.length + 1 ∧
     s.replaceUser.heap.getD s.replaceUser.userRef default =
       { s.heap.getD s.userRef default with name := "New Name" } ∧
     (∀ k, k < s.heap.length → s.replaceUser.heap.getD k default = s.heap.getD k default) ∧
     s.replaceUser.counter = s.counter ∧
     s.replaceUser.apiData = s.apiData ∧
     s.replaceUser.loading = s.loading) ∧
    ((s.mutateUser r).userRef = s.userRef ∧
     (s.mutateUser r).heap.length = s.heap.length ∧
     (s.mutateUser r).heap.getD s.userRef default =
       { s.heap.getD s.userRef default with name := "New Name" ++ r } ∧
     (∀ k, k ≠ s.userRef → (s.mutateUser r).heap.getD k default = s.heap.getD k default) ∧
     (s.mutateUser r).counter = s.counter ∧
     (s.mutateUser r).apiData = s.apiData ∧
     (s.mutateUser r).loading = s.loading) := by
  refine ⟨⟨?_, ?_, ?_, ?_, rfl, rfl, rfl⟩, rfl, ?_, ?_, ?_, rfl, rfl, rfl⟩
  · simp only [UserComponent.replaceUser]
    omega
  · simp [UserComponent.replaceUser]
  · simp only [UserComponent.replaceUser, List.getD_eq_getElem?_getD,
      List.getElem?_concat_length, Option.getD_some]
  · intro k hk
    simp only [UserComponent.replaceUser, List.getD_eq_getElem?_getD,
      List.getElem?_append_left hk]
  · simp [UserComponent.mutateUser]
  · simp only [UserComponent.mutateUser, List.getD_eq_getElem?_getD,
      List.getElem?_set_self h, Option.getD_some]
  · intro k hk
    simp only [UserComponent.mutateUser, List.getD_eq_getElem?_getD,
      List.getElem?_set_ne (Ne.symm hk)]

/-- Witness for C5 at the initial component state with a concrete random
suffix: replaceUser repoints the user reference, and mutateUser rewrites
the pointed-to object in place. -/
theorem C5_witness :
    UserComponent.init.replaceUser.userRef ≠ UserComponent.init.userRef ∧
    (UserComponent.init.mutateUser "0.42").heap.getD UserComponent.init.userRef default =
      { UserComponent.init.heap.getD UserComponent.init.userRef default with
        name := "New Name" ++ "0.42" } :=
  ⟨((C5_replaceUser_vs_mutateUser UserComponent.init "0.42" (by decide)).1).1,
   ((C5_replaceUser_vs_mutateUser UserComponent.init "0.42" (by decide)).2).2.2.1⟩

/-- Claim C6: fetchDataWithObservable sets loading to true at the start,
and when the pipeline settles, on a successful emission (the tap branch)
or on an error (the catchError branch), loading is set back to false, so
the operation never terminates with loading left true. -/
theorem C6_fetchDataWithObservable_resets_loading (s : UserComponent)
    (outcome : Except String Response) :
    (s.fetchDataWithObservableStart).loading = true ∧
    (s.fetchDataWithObservable outcome).loading = false := by
  refine ⟨rfl, ?_⟩
  cases outcome <;> rfl

/-- Claim C7: fetchDataBad sets loading to true; its completion callback
updates apiData with the fetch timestamp but never resets loading (the
reset and markForCheck calls are commented out in the source), so after
fetchDataBad runs to completion loading is still true. -/
theorem C7_fetchDataBad_leaves_loading_true (s : UserComponent) (time : String) :
    (s.fetchDataBadStart).loading = true ∧
    (s.fetchDataBad time).loading = true ∧
    (s.fetchDataBad time).apiData = "Data fetched at " ++ time :=
  ⟨rfl, rfl, rfl⟩

end InterviewPrep
